import Mathlib

/-!
Shallow embedding of the `m5stack/ili9341.py` display driver.

Every hardware interaction of the driver goes through three primitives,
`_write` (command byte, optionally followed by a data payload), `_data`
(payload bytes) and `_read` (command byte followed by reading bytes back).
Each primitive brackets exactly one chip-select-asserted bus transfer, so a
trace of the driver is modelled as a list of `Ev` events, one event per
chip-select-bracketed transfer.  Pure helpers (`color565`) are modelled as
Lean functions; byte packing of `ustruct.pack` is made explicit; machine
integers are `Int`/`Nat` with explicit `% 65536` where the 16-bit packing
truncates.  External collaborators (the SPI bus, the GPIO pins, the
`framebuf` glyph renderer and the optional font provider) are parameters:
bytes received from the bus and glyph bitmaps are passed in as arguments.
-/

/-- color565 from the source module: packs (r, g, b) bytes into a 16-bit
5-6-5 value, `(r & 0xf8) << 8 | (g & 0xfc) << 3 | b >> 3`. -/
def color565 (r g b : Nat) : Nat :=
  (r &&& 0xf8) <<< 8 ||| (g &&& 0xfc) <<< 3 ||| b >>> 3

namespace ILI9341

/-- Register opcode `_COLUMN_SET = 0x2a`. -/
def _COLUMN_SET : Nat := 0x2a

/-- Register opcode `_PAGE_SET = 0x2b`. -/
def _PAGE_SET : Nat := 0x2b

/-- Register opcode `_RAM_WRITE = 0x2c`. -/
def _RAM_WRITE : Nat := 0x2c

/-- Register opcode `_RAM_READ = 0x2e`. -/
def _RAM_READ : Nat := 0x2e

/-- Register opcode `_LINE_SET = 0x37` (vertical scroll start). -/
def _LINE_SET : Nat := 0x37

/-- Register opcode `_MADCTL = 0x36` (memory access control). -/
def _MADCTL : Nat := 0x36

/-- MADCTL flag mirror-Y. -/
def _MADCTL_MY : Nat := 0x80

/-- MADCTL flag mirror-X. -/
def _MADCTL_MX : Nat := 0x40

/-- MADCTL flag swap-axes. -/
def _MADCTL_MV : Nat := 0x20

/-- MADCTL color order flag RGB. -/
def _MADCTL_RGB : Nat := 0x00

/-- MADCTL color order flag BGR. -/
def _MADCTL_BGR : Nat := 0x08

/-- Class attribute `width = 320`. -/
def width : Int := 320

/-- Class attribute `height = 240`. -/
def height : Int := 240

/-- One chip-select-bracketed bus transfer:
`cmd c` is `_write` of a bare command byte (data/command line low),
`data p` is `_data` of payload bytes (data/command line high),
`rd c n` is `_read`, a command byte followed by reading `n` bytes back. -/
inductive Ev : Type where
  | cmd (c : Nat) : Ev
  | data (payload : List Nat) : Ev
  | rd (c : Nat) (count : Int) : Ev
deriving DecidableEq

/-- ustruct.pack of one 16-bit big-endian value: two bytes of `v mod 2^16`
(MicroPython ustruct truncates to the low 16 bits). -/
def pack16 (v : Int) : List Nat :=
  [((v % 65536).toNat) / 256, ((v % 65536).toNat) % 256]

/-- `_write(command, data=None)`: one command-byte transfer, then, when a
payload is present, one `_data` transfer. -/
def _write (command : Nat) (data : Option (List Nat)) : List Ev :=
  Ev.cmd command :: (match data with | none => [] | some d => [Ev.data d])

/-- `_data(data)`: one payload transfer. -/
def _data (data : List Nat) : List Ev :=
  [Ev.data data]

/-- `_block(x0, y0, x1, y1, data=None)`: writes the column range and the page
range (each packed as two big-endian 16-bit values), then either writes the
pixel payload to RAM-write, or issues a RAM-read of
`(x1 - x0 + 1) * (y1 - y0 + 1) * 3` bytes. -/
def _block (x0 y0 x1 y1 : Int) (data : Option (List Nat)) : List Ev :=
  _write _COLUMN_SET (some (pack16 x0 ++ pack16 x1)) ++
  _write _PAGE_SET (some (pack16 y0 ++ pack16 y1)) ++
  (match data with
   | none => [Ev.rd _RAM_READ ((x1 - x0 + 1) * (y1 - y0 + 1) * 3)]
   | some d => _write _RAM_WRITE (some d))

/-- `pixel(x, y, color=None)`: with `color = none` it is a read, issuing a
1-by-1 `_block` read and destructuring the three received bytes as
`r, b, g` before repacking them with `color565(r, g, b)`; the received
bytes are the `recv` argument, and a reception of other than three bytes
is a failure (`none`, a raised error in Python).  With `color = some c` it
bounds-checks `(x, y)` against `width`/`height`, silently doing nothing
when out of range, and otherwise writes the packed color to a 1-by-1
window.  The result is the event trace paired with the returned value. -/
def pixel (x y : Int) (color : Option Nat) (recv : List Nat) :
    List Ev × Option Nat :=
  match color with
  | none =>
    (_block x y x y none,
     match recv with
     | [r, b, g] => some (color565 r g b)
     | _ => none)
  | some c =>
    if ¬ (0 ≤ x ∧ x < width) ∨ ¬ (0 ≤ y ∧ y < height) then ([], none)
    else (_block x y x y (some (pack16 (c : Int))), none)

/-- Clamping performed at the head of `fill_rectangle`:
`x = min(width - 1, max(0, x))`, `y = min(height - 1, max(0, y))`,
`w = min(width - x, max(1, w))`, `h = min(height - y, max(1, h))`. -/
def clamped (x y w h : Int) : Int × Int × Int × Int :=
  let x' := min (width - 1) (max 0 x)
  let y' := min (height - 1) (max 0 y)
  let w' := min (width - x') (max 1 w)
  let h' := min (height - y') (max 1 h)
  (x', y', w', h')

/-- Python byte-string repetition `bs * k`. -/
def repBytes (bs : List Nat) : Nat → List Nat
  | 0 => []
  | k + 1 => bs ++ repBytes bs k

/-- Clamped pixel count `w * h` of a `fill_rectangle` call. -/
def area (x y w h : Int) : Nat :=
  ((clamped x y w h).2.2.1 * (clamped x y w h).2.2.2).toNat

/-- `fill_rectangle(x, y, w, h, color)`: clamps the rectangle, establishes
the window with an empty initial payload, then sends
`divmod(w * h, 512)` chunks: `chunks` transfers of the packed color
repeated 512 times, and one final transfer of the packed color repeated
`rest` times.  The replicate models the `for count in range(chunks)` loop;
the guard `if chunks:` in the source only skips building the unused
512-pixel buffer when `chunks = 0` and does not change the trace. -/
def fill_rectangle (x y w h : Int) (color : Nat) : List Ev :=
  let q := clamped x y w h
  let x' := q.1
  let y' := q.2.1
  let w' := q.2.2.1
  let h' := q.2.2.2
  let n := (w' * h').toNat
  _block x' y' (x' + w' - 1) (y' + h' - 1) (some []) ++
  List.replicate (n / 512) (Ev.data (repBytes (pack16 (color : Int)) 512)) ++
  [Ev.data (repBytes (pack16 (color : Int)) (n % 512))]

/-- `fill(color)`: `fill_rectangle(0, 0, width, height, color)`. -/
def fill (color : Nat) : List Ev :=
  fill_rectangle 0 0 width height color

/-- `set_rotation(value)`: looks up `value % 4` in the table
`[MX | mode, MV | mode, MY | mode, MX | MY | MV | mode]` and writes the
selected value as a 2-byte big-endian payload to the MADCTL register.
The default argument used for an out-of-range lookup is irrelevant since
`value % 4` is always within the four-element table. -/
def set_rotation (mode : Nat) (value : Int) : List Ev :=
  let values := [_MADCTL_MX ||| mode,
                 _MADCTL_MV ||| mode,
                 _MADCTL_MY ||| mode,
                 _MADCTL_MX ||| _MADCTL_MY ||| _MADCTL_MV ||| mode]
  _write _MADCTL (some (pack16 ((values.getD ((value % 4).toNat) 0 : Nat) : Int)))

/-- `scroll(dy=None)` acting on the stored offset `_scroll`: with no
argument it returns the stored offset and issues no transfer; with an
argument it stores `(_scroll + dy) % height` and writes the new offset as
a 2-byte big-endian payload to the LINE_SET register.  The result is the
returned value, the new stored offset and the event trace. -/
def scroll (s : Int) (dy : Option Int) : Option Int × Int × List Ev :=
  match dy with
  | none => (some s, s, [])
  | some dy =>
    let s' := (s + dy) % height
    (none, s', _write _LINE_SET (some (pack16 s')))

/-- Expansion loop of `char`: walks the 8 glyph bytes (one per column) and,
for each of the 8 rows, writes the 2 packed foreground or background bytes
at offset `r * 8 * 2 + c * 2` of the 128-byte buffer, foreground exactly
when bit `r` of the column byte is set. -/
def charData (buffer : List Nat) (color background : List Nat) : List Nat :=
  buffer.enum.foldl (fun data p =>
    (List.range 8).foldl (fun data r =>
      if p.2 &&& (1 <<< r) ≠ 0 then
        (data.set (r * 8 * 2 + p.1 * 2) (color.getD 0 0)).set
          (r * 8 * 2 + p.1 * 2 + 1) (color.getD 1 0)
      else
        (data.set (r * 8 * 2 + p.1 * 2) (background.getD 0 0)).set
          (r * 8 * 2 + p.1 * 2 + 1) (background.getD 1 0))
      data)
    (List.replicate (2 * 8 * 8) 0)

/-- `char(char, x, y, color, background)`: renders one built-in 8-by-8
glyph and blits it via a single `_block` write to the window
`(x, y, x + 7, y + 7)`.  The 8 glyph bytes come from the external
`framebuf.FrameBuffer1` renderer and are passed in as `buffer`. -/
def char (buffer : List Nat) (x y : Int) (color background : Nat) : List Ev :=
  _block x y (x + 7) (y + 7)
    (some (charData buffer (pack16 (color : Int)) (pack16 (background : Int))))

/-- Expansion loop of `font_char`: walks the glyph column-major; the current
glyph byte is fetched at `scol * gbytes + srow / 8` whenever `srow % 8 = 0`
and carried across the following rows, and each pixel writes the 2 packed
foreground or background bytes at `srow * char_width * 2 + scol * 2`. -/
def fontCharData (glyph : List Nat) (char_height char_width gbytes : Nat)
    (color background : List Nat) : List Nat :=
  ((List.range char_width).foldl (fun st scol =>
    (List.range char_height).foldl (fun st srow =>
      let d := if srow % 8 = 0 then glyph.getD (scol * gbytes + srow / 8) 0
               else st.2
      (if d &&& (1 <<< (srow % 8)) ≠ 0 then
        (st.1.set (srow * char_width * 2 + scol * 2) (color.getD 0 0)).set
          (srow * char_width * 2 + scol * 2 + 1) (color.getD 1 0)
      else
        (st.1.set (srow * char_width * 2 + scol * 2) (background.getD 0 0)).set
          (srow * char_width * 2 + scol * 2 + 1) (background.getD 1 0),
       d)) st) (List.replicate (2 * char_height * char_width) 0, 0)).1

/-- `font_char(font, char, x, y, color, background)`: unpacks the glyph
supplied by the external font provider (`glyph` bytes with its
`char_height` and `char_width`), blits it via a single `_block` write to
the window `(x, y, x + char_width - 1, y + char_height - 1)` and returns
`char_width`.  `gbytes = div + 1 if mod else div` for
`div, mod = divmod(char_height, 8)`. -/
def font_char (glyph : List Nat) (char_height char_width : Nat) (x y : Int)
    (color background : Nat) : List Ev × Nat :=
  let gbytes := if char_height % 8 ≠ 0 then char_height / 8 + 1
                else char_height / 8
  (_block x y (x + (char_width : Int) - 1) (y + (char_height : Int) - 1)
    (some (fontCharData glyph char_height char_width gbytes
      (pack16 (color : Int)) (pack16 (background : Int)))),
   char_width)

/-- Cursor state threaded through the character loop of `text`, together
with the cursor positions passed to each glyph blit (`draws`) and the
arguments of each clear-to-end-of-line `fill_rectangle` call (`fills`). -/
structure TState where
  tx : Int
  ty : Int
  draws : List (Int × Int)
  fills : List (Int × Int × Int × Int)
deriving DecidableEq

/-- Inner closure `new_line` of `text`: resets `tx` to the starting `x`,
advances `ty` by 8, and wraps `ty` back to the starting `y` when it would
reach the vertical boundary. -/
def new_line (x y vwrap : Int) (s : TState) : TState :=
  let ty := s.ty + 8
  { s with tx := x, ty := if vwrap ≤ ty then y else ty }

/-- One iteration of the character loop of `text`: a newline optionally
clears to the end of the line and starts a new line; any other character
first starts a new line when `tx` has reached the wrap boundary, then is
drawn at `(tx, ty)`, advancing `tx` by 8 for the built-in font or by the
width reported by the font provider otherwise. -/
def textStep (x y wrap vwrap : Int) (fontW : Option (Char → Int))
    (clear_eol : Bool) (s : TState) (c : Char) : TState :=
  if c = '\n' then
    let s' := if clear_eol ∧ s.tx < wrap then
                { s with fills := s.fills ++ [(s.tx, s.ty, wrap - s.tx + 7, 8)] }
              else s
    new_line x y vwrap s'
  else
    let s' := if wrap ≤ s.tx then new_line x y vwrap s else s
    match fontW with
    | none => { s' with draws := s'.draws ++ [(s'.tx, s'.ty)], tx := s'.tx + 8 }
    | some fw => { s' with draws := s'.draws ++ [(s'.tx, s'.ty)],
                           tx := s'.tx + fw c }

/-- Layout of `text(text, x, y, ..., wrap=None, vwrap=None, clear_eol=False,
font=None)`: the wrap boundaries default to `width - 8` and `height - 8`,
the cursor starts at `(x, y)`, the character loop runs, and a final
clear-to-end-of-line fill is recorded when requested.  `fontW` maps a
character to the width returned by `font_char`; `none` selects the
built-in 8-pixel `char` path. -/
def text (chars : List Char) (x y : Int) (wrap vwrap : Option Int)
    (clear_eol : Bool) (fontW : Option (Char → Int)) : TState :=
  let wrap' := wrap.getD (width - 8)
  let vwrap' := vwrap.getD (height - 8)
  let s := chars.foldl (textStep x y wrap' vwrap' fontW clear_eol)
    { tx := x, ty := y, draws := [], fills := [] }
  if clear_eol ∧ s.tx < wrap' then
    { s with fills := s.fills ++ [(s.tx, s.ty, wrap' - s.tx + 7, 8)] }
  else s

/-- Observation: payloads of the data transfer immediately following each
command-byte transfer of opcode `c` (the payload of `_write(c, payload)`).
The `last` accumulator remembers the opcode of an immediately preceding
command transfer. -/
def cmdPayloadsAux (c : Nat) (last : Option Nat) : List Ev → List (List Nat)
  | [] => []
  | Ev.cmd c' :: rest => cmdPayloadsAux c (some c') rest
  | Ev.data d :: rest =>
    (if last = some c then [d] else []) ++ cmdPayloadsAux c none rest
  | Ev.rd _ _ :: rest => cmdPayloadsAux c none rest

/-- Observation: payloads written as the parameter of command `c`. -/
def cmdPayloads (c : Nat) (evs : List Ev) : List (List Nat) :=
  cmdPayloadsAux c none evs

/-- Observation: a 4-byte address payload decoded as the two big-endian
16-bit bounds it carries. -/
def pairs4 : List Nat → Option (Nat × Nat)
  | [a, b, c, d] => some (a * 256 + b, c * 256 + d)
  | _ => none

/-- Observation: the (start, end) bounds sent with each command `c`. -/
def windowPairs (c : Nat) (evs : List Ev) : List (Nat × Nat) :=
  (cmdPayloads c evs).filterMap pairs4

/-- The 16-bit value a coordinate becomes under `pack16`. -/
def u16 (v : Int) : Nat :=
  ((v % 65536).toNat)

/-- Invariant of an event trace: every window sent via the column-set and
page-set commands satisfies `x0 ≤ x1 < width` and `y0 ≤ y1 < height`
(the bounds are naturals, so `0 ≤ x0` and `0 ≤ y0` hold by type). -/
def windowsOK (evs : List Ev) : Prop :=
  (∀ p ∈ windowPairs _COLUMN_SET evs, p.1 ≤ p.2 ∧ p.2 < 320) ∧
  (∀ p ∈ windowPairs _PAGE_SET evs, p.1 ≤ p.2 ∧ p.2 < 240)

/-- Observation: the trace suffix strictly after the first command transfer
of opcode `c`. -/
def afterCmd (c : Nat) : List Ev → List Ev
  | [] => []
  | Ev.cmd c' :: rest => if c' = c then rest else afterCmd c rest
  | Ev.data _ :: rest => afterCmd c rest
  | Ev.rd _ _ :: rest => afterCmd c rest

/-- Observation: the payloads of all data transfers in a trace. -/
def dataPayloads : List Ev → List (List Nat)
  | [] => []
  | Ev.cmd _ :: rest => dataPayloads rest
  | Ev.data d :: rest => d :: dataPayloads rest
  | Ev.rd _ _ :: rest => dataPayloads rest

/-- Observation: the payloads of the data transfers following the RAM-write
command, that is, everything streamed into the established window. -/
def ramPayloads (evs : List Ev) : List (List Nat) :=
  dataPayloads (afterCmd _RAM_WRITE evs)

/-- Modelled from the spec, amended at index 1: the table of MADCTL flag
combinations selected by value mod 4 is (mirror-X, swap-axes, mirror-Y,
mirror-X + mirror-Y + swap-axes) = (0x40, 0x20, 0x80, 0xE0), each
bitwise-ORed with the configured color-order mode flag. -/
def rotationSpec (mode : Nat) (value : Int) : Nat :=
  [0x40, 0x20, 0x80, 0xe0].getD ((value % 4).toNat) 0 ||| mode

set_option maxRecDepth 4000 in
lemma land248 : ∀ r < 256, r &&& 248 = 8 * (r / 8) := by decide

set_option maxRecDepth 4000 in
lemma land252 : ∀ g < 256, g &&& 252 = 4 * (g / 4) := by decide

lemma lor_disj (k a b : Nat) (hb : b < 2 ^ k) :
    (2 ^ k * a) ||| b = 2 ^ k * a + b := by
  apply Nat.eq_of_testBit_eq
  intro j
  have hmul := Nat.testBit_mul_pow_two_add a (Nat.two_pow_pos k) j
  rw [Nat.add_zero] at hmul
  rw [Nat.testBit_lor, hmul, Nat.testBit_mul_pow_two_add a hb j]
  rcases Nat.lt_or_ge j k with h | h
  · simp [h, Nat.zero_testBit]
  · have hbj : b.testBit j = false :=
      Nat.testBit_lt_two_pow
        (lt_of_lt_of_le hb (Nat.pow_le_pow_right (by norm_num) h))
    simp [Nat.not_lt.mpr h, hbj]

lemma color565_arith (r g b : Nat) (hr : r < 256) (hg : g < 256) (hb : b < 256) :
    color565 r g b = 2048 * (r / 8) + 32 * (g / 4) + b / 8 := by
  unfold color565
  rw [land248 r hr, land252 g hg, Nat.shiftLeft_eq, Nat.shiftLeft_eq,
    Nat.shiftRight_eq_div_pow]
  have e1 : 8 * (r / 8) * 2 ^ 8 = 2 ^ 11 * (r / 8) := by ring
  have e2 : 4 * (g / 4) * 2 ^ 3 = 32 * (g / 4) := by ring
  rw [e1, e2]
  have h1 : 32 * (g / 4) < 2 ^ 11 := by omega
  rw [lor_disj 11 (r / 8) _ h1]
  have e3 : 2 ^ 11 * (r / 8) + 32 * (g / 4) = 2 ^ 5 * (64 * (r / 8) + g / 4) := by
    ring
  rw [e3]
  have h2 : b / 2 ^ 3 < 2 ^ 5 := by omega
  rw [lor_disj 5 _ _ h2]
  norm_num
  ring

lemma pairs4_pack16 (a b : Int) :
    pairs4 (pack16 a ++ pack16 b) = some (u16 a, u16 b) := by
  simp [pairs4, pack16, u16]
  omega

lemma cmdPayloadsAux_replicate_data (c : Nat) (n : Nat) (d : List Nat)
    (l : List Ev) :
    cmdPayloadsAux c none (List.replicate n (Ev.data d) ++ l) =
      cmdPayloadsAux c none l := by
  induction n with
  | zero => rfl
  | succ k ih => simp [List.replicate_succ, cmdPayloadsAux, ih]

lemma dataPayloads_replicate (n : Nat) (d : List Nat) (l : List Ev) :
    dataPayloads (List.replicate n (Ev.data d) ++ l) =
      List.replicate n d ++ dataPayloads l := by
  induction n with
  | zero => rfl
  | succ k ih => simp [List.replicate_succ, dataPayloads, ih]

lemma block_windows (x0 y0 x1 y1 : Int) (d : Option (List Nat)) :
    windowPairs _COLUMN_SET (_block x0 y0 x1 y1 d) = [(u16 x0, u16 x1)] ∧
    windowPairs _PAGE_SET (_block x0 y0 x1 y1 d) = [(u16 y0, u16 y1)] := by
  cases d <;>
    simp [windowPairs, cmdPayloads, _block, _write, cmdPayloadsAux,
      _COLUMN_SET, _PAGE_SET, _RAM_WRITE, pairs4_pack16]

lemma fill_rectangle_windows (x y w h : Int) (c : Nat) :
    windowPairs _COLUMN_SET (fill_rectangle x y w h c) =
      [(u16 (clamped x y w h).1,
        u16 ((clamped x y w h).1 + (clamped x y w h).2.2.1 - 1))] ∧
    windowPairs _PAGE_SET (fill_rectangle x y w h c) =
      [(u16 (clamped x y w h).2.1,
        u16 ((clamped x y w h).2.1 + (clamped x y w h).2.2.2 - 1))] := by
  simp [windowPairs, cmdPayloads, fill_rectangle, _block, _write,
    cmdPayloadsAux, cmdPayloadsAux_replicate_data,
    _COLUMN_SET, _PAGE_SET, _RAM_WRITE, pairs4_pack16]

lemma fill_rectangle_ramPayloads (x y w h : Int) (c : Nat) :
    ramPayloads (fill_rectangle x y w h c) =
      [] :: (List.replicate (area x y w h / 512) (repBytes (pack16 (c : Int)) 512) ++
        [repBytes (pack16 (c : Int)) (area x y w h % 512)]) := by
  simp [ramPayloads, fill_rectangle, _block, _write, afterCmd, dataPayloads,
    dataPayloads_replicate, area, _COLUMN_SET, _PAGE_SET, _RAM_WRITE]

lemma clamped_bounds (x y w h : Int) :
    0 ≤ (clamped x y w h).1 ∧ (clamped x y w h).1 ≤ 319 ∧
    0 ≤ (clamped x y w h).2.1 ∧ (clamped x y w h).2.1 ≤ 239 ∧
    1 ≤ (clamped x y w h).2.2.1 ∧
    (clamped x y w h).2.2.1 ≤ 320 - (clamped x y w h).1 ∧
    1 ≤ (clamped x y w h).2.2.2 ∧
    (clamped x y w h).2.2.2 ≤ 240 - (clamped x y w h).2.1 := by
  simp only [clamped, width, height]
  omega

lemma u16_toNat (v : Int) (h0 : 0 ≤ v) (h1 : v < 65536) : u16 v = v.toNat := by
  simp [u16]
  omega

lemma repBytes_length (bs : List Nat) (k : Nat) :
    (repBytes bs k).length = k * bs.length := by
  induction k with
  | zero => simp [repBytes]
  | succ m ih => simp [repBytes, ih]; ring

lemma fill_rectangle_getLast (x y w h : Int) (c : Nat) :
    (fill_rectangle x y w h c).getLast? =
      some (Ev.data (repBytes (pack16 (c : Int)) (area x y w h % 512))) := by
  simp [fill_rectangle, area, ← List.append_assoc]

lemma pixel_write_windowsOK (x y : Int) (c : Nat) (recv : List Nat) :
    windowsOK ((pixel x y (some c) recv).1) := by
  by_cases hb : (¬ (0 ≤ x ∧ x < width) ∨ ¬ (0 ≤ y ∧ y < height))
  · simp only [pixel, if_pos hb]
    exact ⟨by simp [windowPairs, cmdPayloads, cmdPayloadsAux],
           by simp [windowPairs, cmdPayloads, cmdPayloadsAux]⟩
  · simp only [pixel, if_neg hb]
    push_neg at hb
    simp only [width, height] at hb
    constructor
    · intro p hp
      rw [(block_windows x y x y _).1] at hp
      simp only [List.mem_singleton] at hp
      subst hp
      simp only [u16]
      omega
    · intro p hp
      rw [(block_windows x y x y _).2] at hp
      simp only [List.mem_singleton] at hp
      subst hp
      simp only [u16]
      omega

lemma fill_rectangle_windowsOK (x y w h : Int) (c : Nat) :
    windowsOK (fill_rectangle x y w h c) := by
  have hw := fill_rectangle_windows x y w h c
  have hb := clamped_bounds x y w h
  constructor
  · intro p hp
    rw [hw.1] at hp
    simp only [List.mem_singleton] at hp
    subst hp
    simp only [u16]
    omega
  · intro p hp
    rw [hw.2] at hp
    simp only [List.mem_singleton] at hp
    subst hp
    simp only [u16]
    omega

/-- C1 (amended): pixel write and fill_rectangle always send windows
satisfying 0 ≤ x0 ≤ x1 < width and 0 ≤ y0 ≤ y1 < height; pixel read,
char and font_char instead forward the window computed from their raw
arguments (truncated to 16 bits by payload packing) without any clipping
or rejection. -/
theorem C1_window_discipline :
    (∀ (x y : Int) (c : Nat) (recv : List Nat),
      windowsOK ((pixel x y (some c) recv).1)) ∧
    (∀ (x y w h : Int) (c : Nat), windowsOK (fill_rectangle x y w h c)) ∧
    (∀ (x y : Int) (recv : List Nat),
      windowPairs _COLUMN_SET ((pixel x y none recv).1) = [(u16 x, u16 x)] ∧
      windowPairs _PAGE_SET ((pixel x y none recv).1) = [(u16 y, u16 y)]) ∧
    (∀ (buf : List Nat) (x y : Int) (c bg : Nat),
      windowPairs _COLUMN_SET (char buf x y c bg) = [(u16 x, u16 (x + 7))] ∧
      windowPairs _PAGE_SET (char buf x y c bg) = [(u16 y, u16 (y + 7))]) ∧
    (∀ (glyph : List Nat) (chh chw : Nat) (x y : Int) (c bg : Nat),
      windowPairs _COLUMN_SET ((font_char glyph chh chw x y c bg).1) =
        [(u16 x, u16 (x + (chw : Int) - 1))] ∧
      windowPairs _PAGE_SET ((font_char glyph chh chw x y c bg).1) =
        [(u16 y, u16 (y + (chh : Int) - 1))]) := by
  refine ⟨pixel_write_windowsOK, fill_rectangle_windowsOK, ?_, ?_, ?_⟩
  · intro x y recv
    exact block_windows x y x y none
  · intro buf x y c bg
    exact block_windows x y (x + 7) (y + 7) _
  · intro glyph chh chw x y c bg
    exact block_windows x y (x + (chw : Int) - 1) (y + (chh : Int) - 1)
      (some (fontCharData glyph chh chw
        (if chh % 8 ≠ 0 then chh / 8 + 1 else chh / 8)
        (pack16 (c : Int)) (pack16 (bg : Int))))

/-- C1 counterexample: the pixel read operation at (400, 10) on the
320-wide panel sends the out-of-range window (400, 400) via the
column-set command, so the claimed invariant fails for pixel reads. -/
theorem C1_counterexample : ¬ windowsOK ((pixel 400 10 none []).1) := by
  intro hok
  have h := hok.1 (400, 400) (by decide)
  omega

/-- C1 witness: char at x = 319 forwards the out-of-range window
(319, 326) unclipped. -/
theorem C1_witness :
    windowPairs _COLUMN_SET (char [0, 0, 0, 0, 0, 0, 0, 0] 319 0 0xffff 0) =
      [(319, 326)] := by
  have h := (C1_window_discipline.2.2.2.1 [0, 0, 0, 0, 0, 0, 0, 0] 319 0 0xffff 0).1
  simpa using h



/-- C2 counterexample: set_rotation(1) with mode = BGR writes the payload
for 0x20 | 0x08 = 0x28, not for the claimed 0x60 | 0x08 = 0x68. -/
theorem C2_counterexample :
    cmdPayloads _MADCTL (set_rotation _MADCTL_BGR 1) ≠
      [pack16 ((((0x60 : Nat) ||| 0x08 : Nat) : Int))] := by decide

/-- C2 (amended): for every integer value, set_rotation writes to the
MADCTL register the 2-byte big-endian packing of the flag combination
selected by value mod 4 from (0x40, 0x20, 0x80, 0xE0), bitwise-ORed with
the mode flag; in particular set_rotation(1) with mode = BGR writes the
payload of 0x20 | 0x08. -/
theorem C2_set_rotation (mode : Nat) (value : Int) :
    set_rotation mode value =
      [Ev.cmd _MADCTL, Ev.data (pack16 ((rotationSpec mode value : Nat) : Int))] ∧
    cmdPayloads _MADCTL (set_rotation _MADCTL_BGR 1) =
      [pack16 ((((0x20 : Nat) ||| 0x08 : Nat) : Int))] := by
  constructor
  · have h4 : value % 4 = 0 ∨ value % 4 = 1 ∨ value % 4 = 2 ∨ value % 4 = 3 := by
      omega
    have hMXMYMV : ((0x40 ||| 0x80 ||| 0x20 : Nat)) = 0xe0 := by decide
    rcases h4 with h | h | h | h <;>
      simp [set_rotation, rotationSpec, _write, h, _MADCTL_MX, _MADCTL_MV,
        _MADCTL_MY, hMXMYMV]
  · decide

/-- C3: for all bytes r, g, b, unpacking the 5-6-5 fields of
color565(r, g, b) and shifting each back to bit depth 8 recovers the
inputs masked to their representable bit depth. -/
theorem C3_color565_roundtrip (r g b : Nat)
    (hr : r ≤ 255) (hg : g ≤ 255) (hb : b ≤ 255) :
    ((color565 r g b >>> 11) &&& 0x1f) <<< 3 = r &&& 0xf8 ∧
    ((color565 r g b >>> 5) &&& 0x3f) <<< 2 = g &&& 0xfc ∧
    (color565 r g b &&& 0x1f) <<< 3 = b &&& 0xf8 := by
  have h := color565_arith r g b (by omega) (by omega) (by omega)
  have m1 : ∀ n : Nat, n &&& 0x1f = n % 32 := by
    intro n
    have := Nat.and_pow_two_sub_one_eq_mod n 5
    norm_num at this
    exact this
  have m2 : ∀ n : Nat, n &&& 0x3f = n % 64 := by
    intro n
    have := Nat.and_pow_two_sub_one_eq_mod n 6
    norm_num at this
    exact this
  rw [h, land248 r (by omega), land248 b (by omega), land252 g (by omega),
    Nat.shiftRight_eq_div_pow, Nat.shiftRight_eq_div_pow, m1, m1, m2,
    Nat.shiftLeft_eq, Nat.shiftLeft_eq, Nat.shiftLeft_eq]
  norm_num
  omega

/-- C3 witness at the spec example (0xF8, 0xFC, 0xF8). -/
theorem C3_witness :
    (0xf8 : Nat) ≤ 255 ∧ (0xfc : Nat) ≤ 255 ∧
    (((color565 0xf8 0xfc 0xf8 >>> 11) &&& 0x1f) <<< 3 = 0xf8 &&& 0xf8 ∧
     ((color565 0xf8 0xfc 0xf8 >>> 5) &&& 0x3f) <<< 2 = 0xfc &&& 0xfc ∧
     (color565 0xf8 0xfc 0xf8 &&& 0x1f) <<< 3 = 0xf8 &&& 0xf8) :=
  ⟨by decide, by decide,
   C3_color565_roundtrip 0xf8 0xfc 0xf8 (by decide) (by decide) (by decide)⟩

/-- C4: the payload streamed into the window of a fill_rectangle call of
clamped area n is the empty window-establishing transfer followed by
n / 512 transfers of 512 packed pixels and one final transfer of exactly
n mod 512 packed pixels; every transfer carries at most 512 pixels
(1024 bytes), and a 1000-pixel fill ends with a 488-pixel chunk. -/
theorem C4_fill_chunking (x y w h : Int) (color : Nat) :
    ramPayloads (fill_rectangle x y w h color) =
      [] :: (List.replicate (area x y w h / 512)
               (repBytes (pack16 (color : Int)) 512) ++
             [repBytes (pack16 (color : Int)) (area x y w h % 512)]) ∧
    (∀ p ∈ ramPayloads (fill_rectangle x y w h color), p.length ≤ 2 * 512) ∧
    (ramPayloads (fill_rectangle 0 0 40 25 color)).getLast? =
      some (repBytes (pack16 (color : Int)) 488) := by
  refine ⟨fill_rectangle_ramPayloads x y w h color, ?_, ?_⟩
  · intro p hp
    rw [fill_rectangle_ramPayloads] at hp
    simp only [List.mem_cons, List.mem_append, List.mem_replicate,
      List.mem_singleton] at hp
    have hlen : ∀ k, (repBytes (pack16 (color : Int)) k).length = k * 2 := by
      intro k
      rw [repBytes_length]
      rfl
    rcases hp with hp | ⟨_, hp⟩ | hp | hp
    · subst hp
      simp
    · subst hp
      simp [hlen]
    · subst hp
      rw [hlen]
      omega
    · simp at hp
  · rw [fill_rectangle_ramPayloads]
    have ha : area 0 0 40 25 = 1000 := by decide
    rw [ha]
    norm_num [List.replicate]

/-- C4 witness: the 1000-pixel fill at color 3 ends with a 488-pixel
chunk. -/
theorem C4_witness :
    (ramPayloads (fill_rectangle 0 0 40 25 3)).getLast? =
      some (repBytes (pack16 ((3 : Nat) : Int)) 488) :=
  (C4_fill_chunking 0 0 40 25 3).2.2

/-- C5: fill_rectangle clamps x into [0, 319], y into [0, 239] and w, h to
at least 1 and at most the remaining space; every issued window is in
bounds, and fill_rectangle(-5, -5, 10, 10, c) issues exactly the window
(0, 0)-(9, 9). -/
theorem C5_fill_clamping (x y w h : Int) (color : Nat) :
    (0 ≤ (clamped x y w h).1 ∧ (clamped x y w h).1 ≤ 319 ∧
     0 ≤ (clamped x y w h).2.1 ∧ (clamped x y w h).2.1 ≤ 239 ∧
     1 ≤ (clamped x y w h).2.2.1 ∧
     (clamped x y w h).2.2.1 ≤ 320 - (clamped x y w h).1 ∧
     1 ≤ (clamped x y w h).2.2.2 ∧
     (clamped x y w h).2.2.2 ≤ 240 - (clamped x y w h).2.1) ∧
    windowsOK (fill_rectangle x y w h color) ∧
    windowPairs _COLUMN_SET (fill_rectangle (-5) (-5) 10 10 color) = [(0, 9)] ∧
    windowPairs _PAGE_SET (fill_rectangle (-5) (-5) 10 10 color) = [(0, 9)] := by
  refine ⟨clamped_bounds x y w h, fill_rectangle_windowsOK x y w h color, ?_, ?_⟩
  · have hc : clamped (-5) (-5) 10 10 = (0, 0, 10, 10) := by decide
    have hw := (fill_rectangle_windows (-5) (-5) 10 10 color).1
    rw [hc] at hw
    norm_num [u16] at hw
    exact hw
  · have hc : clamped (-5) (-5) 10 10 = (0, 0, 10, 10) := by decide
    have hw := (fill_rectangle_windows (-5) (-5) 10 10 color).2
    rw [hc] at hw
    norm_num [u16] at hw
    exact hw

/-- C5 witness at a call that needs clamping on every side. -/
theorem C5_witness :
    windowPairs _COLUMN_SET (fill_rectangle (-5) (-5) 10 10 5) = [(0, 9)] :=
  (C5_fill_clamping (-5) (-5) 10 10 5).2.2.1

/-- C6: a pixel write with x outside [0, 320) or y outside [0, 240)
performs no bus transfer at all and returns without error. -/
theorem C6_pixel_oob_noop (x y : Int) (c : Nat) (recv : List Nat)
    (h : ¬ (0 ≤ x ∧ x < 320) ∨ ¬ (0 ≤ y ∧ y < 240)) :
    pixel x y (some c) recv = ([], none) := by
  simp only [pixel, width, height]
  exact if_pos h

/-- C6 witness: pixel(400, 10, color) on the 320-wide panel transfers
nothing. -/
theorem C6_witness :
    (¬ ((0 : Int) ≤ 400 ∧ (400 : Int) < 320) ∨
     ¬ ((0 : Int) ≤ 10 ∧ (10 : Int) < 240)) ∧
    pixel 400 10 (some 7) [] = ([], none) :=
  ⟨by decide, C6_pixel_oob_noop 400 10 7 [] (by decide)⟩

/-- C7: a pixel read sets the 1-by-1 window (x, y, x, y), reads exactly 3
bytes, and repacks the received bytes, first as red, second as blue,
third as green, via color565(red, green, blue). -/
theorem C7_pixel_read (x y : Int) (recv : List Nat) (b0 b1 b2 : Nat) :
    (pixel x y none recv).1 =
      [Ev.cmd _COLUMN_SET, Ev.data (pack16 x ++ pack16 x),
       Ev.cmd _PAGE_SET, Ev.data (pack16 y ++ pack16 y),
       Ev.rd _RAM_READ 3] ∧
    (pixel x y none [b0, b1, b2]).2 = some (color565 b0 b2 b1) := by
  constructor
  · have h3 : (x - x + 1) * (y - y + 1) * 3 = 3 := by ring
    simp [pixel, _block, _write, h3]
  · rfl

/-- C8: scroll() with no argument returns the stored offset with no
register write; scroll(dy) stores (offset + dy) mod height, always in
[0, 239], and writes it big-endian to the LINE_SET register; from offset
0, scroll(250) stores 10. -/
theorem C8_scroll (s dy : Int) :
    scroll s none = (some s, s, []) ∧
    (scroll s (some dy)).2.1 = (s + dy) % 240 ∧
    (scroll s (some dy)).2.2 =
      [Ev.cmd _LINE_SET, Ev.data (pack16 ((s + dy) % 240))] ∧
    (0 ≤ (scroll s (some dy)).2.1 ∧ (scroll s (some dy)).2.1 < 240) ∧
    (scroll 0 (some 250)).2.1 = 10 := by
  refine ⟨rfl, ?_, ?_, ?_, by decide⟩
  · simp [scroll, height]
  · simp [scroll, height, _write]
  · simp only [scroll, height]
    omega

/-- C9: with wrap boundary 16, the built-in 8-pixel font, starting x = 0
and y + 8 below the vertical boundary, a 3-character string without
newlines draws at (0, y), (8, y) and wraps the third character to
(0, y + 8). -/
theorem C9_text_wrap (c1 c2 c3 : Char) (y : Int)
    (h1 : c1 ≠ '\n') (h2 : c2 ≠ '\n') (h3 : c3 ≠ '\n')
    (hy : y + 8 < 232) :
    (text [c1, c2, c3] 0 y (some 16) none false none).draws =
      [(0, y), (8, y), (0, y + 8)] ∧
    (text [c1, c2, c3] 0 y (some 16) none false none).ty = y + 8 := by
  have hy2 : ¬ ((232 : Int) ≤ y + 8) := by omega
  simp [text, textStep, new_line, h1, h2, h3, hy2, width, height]

/-- C9 witness at the characters a, b, c and y = 0. -/
theorem C9_witness :
    ('a' ≠ '\n') ∧ ('b' ≠ '\n') ∧ ('c' ≠ '\n') ∧ ((0 : Int) + 8 < 232) ∧
    (text ['a', 'b', 'c'] 0 0 (some 16) none false none).draws =
      [(0, 0), (8, 0), (0, 0 + 8)] :=
  ⟨by decide, by decide, by decide, by decide,
   (C9_text_wrap 'a' 'b' 'c' 0 (by decide) (by decide) (by decide)
     (by decide)).1⟩

lemma fill_rectangle_last_empty (x y w h : Int) (c : Nat)
    (hd : area x y w h % 512 = 0) :
    (fill_rectangle x y w h c).getLast? = some (Ev.data []) := by
  rw [fill_rectangle_getLast, hd]
  rfl

/-- C10: when the clamped pixel count is an exact multiple of 512, the
trace of fill_rectangle ends with a data transfer carrying a zero-length
payload (chip-select is still toggled for it, since every data event is
one chip-select-bracketed transfer), and fill over the full 320x240
screen always ends with such an empty transfer. -/
theorem C10_fill_multiple_512 (x y w h : Int) (c : Nat)
    (hd : area x y w h % 512 = 0) :
    (fill_rectangle x y w h c).getLast? = some (Ev.data []) ∧
    (ramPayloads (fill_rectangle x y w h c)).getLast? = some [] ∧
    (∀ c2 : Nat, (fill c2).getLast? = some (Ev.data [])) := by
  refine ⟨fill_rectangle_last_empty x y w h c hd, ?_, ?_⟩
  · rw [fill_rectangle_ramPayloads, hd]
    rw [← List.cons_append, List.getLast?_concat]
    rfl
  · intro c2
    exact fill_rectangle_last_empty 0 0 width height c2 (by decide)

/-- C10 witness: the full-screen fill area 76800 is a multiple of 512 and
the trace ends with an empty data transfer. -/
theorem C10_witness :
    area 0 0 320 240 % 512 = 0 ∧
    (fill_rectangle 0 0 320 240 6).getLast? = some (Ev.data []) :=
  ⟨by decide, (C10_fill_multiple_512 0 0 320 240 6 (by decide)).1⟩

end ILI9341
